import Mathlib

/-!
Verification of the identity / authentication core of the contacts service
(src/auth.py, src/crud.py, src/api.py, src/redis_client.py, src/models.py).

The SQLAlchemy user table is embedded as a list of `User` records; the Redis
cache as an association-list state `Cache` together with a fault profile
`CacheFx` saying which Redis calls raise a connection error (the Python
client propagates any such exception to its caller — there is no try/except
around the Redis calls in auth.py, crud.py or api.py).  Stateful operations
return their result together with the updated store and cache; errors are
explicit `Except` values mirroring the raised `HTTPException` / `ValueError`
/ redis exception at each `raise` site.
-/

namespace ContactsApi

/-- models.UserRole: enumeration of user roles (models.py, class UserRole). -/
inductive UserRole where
  | user
  | admin
deriving DecidableEq, Repr

/-- The string value of a role, as used in auth.py when building the cached
dict (`user.role.value`). -/
def UserRole.value : UserRole → String
  | .user => "user"
  | .admin => "admin"

/-- models.User: one row of the users table (models.py, class User). -/
structure User where
  id : Nat
  email : String
  hashed_password : String
  avatar : Option String
  verified : Bool
  verification_token : Option String
  role : UserRole
  reset_token : Option String
deriving DecidableEq, Repr

/-- The users table of the credential store: the rows visible to
`db.query(models.User)`. -/
structure Store where
  users : List User
deriving DecidableEq, Repr

/-- Modelled from the spec (section 4.1): password hashing is delegated to the
third-party passlib/bcrypt library, absent from src/.  The contract used by the
code is `verify(p, hash(p)) = true` and `verify(q, hash(p)) = false` for
`q ≠ p`; we realise it with an injective tagging function. -/
def get_password_hash (password : String) : String :=
  String.append "bcrypt$" password

/-- auth.verify_password: check a plaintext password against a stored digest
(auth.py, verify_password), under the same section 4.1 hasher model. -/
def verify_password (plain_password hashed_password : String) : Bool :=
  get_password_hash plain_password == hashed_password

/-- auth.SECRET_KEY: the process-wide signing secret, loaded once from the
environment at startup (auth.py line 18).  Its value is opaque; only identity
of the key matters to the codec. -/
def SECRET_KEY : String := "SECRET_KEY"

/-- auth.ACCESS_TOKEN_EXPIRE_MINUTES (auth.py line 20). -/
def ACCESS_TOKEN_EXPIRE_MINUTES : Nat := 30

/-- The claims dictionary passed to jwt.encode: the code only ever stores and
reads the subject claim `sub` (plus the expiry added by create_access_token). -/
structure JwtData where
  sub : Option String
deriving DecidableEq, Repr

/-- A signed bearer token: the encoded payload (`sub` claim and absolute expiry
instant, in seconds) together with the key it was signed with. -/
structure Token where
  sub : Option String
  exp : Nat
  key : String
deriving DecidableEq, Repr

/-- auth.create_access_token (auth.py lines 56-74): copy the claims, add
`exp = now + expires_delta` (default 15 minutes), sign with SECRET_KEY.
`now` is the current time in seconds; `expires_delta` in seconds. -/
def create_access_token (now : Nat) (data : JwtData)
    (expires_delta : Option Nat) : Token :=
  let expire : Nat :=
    match expires_delta with
    | some d => now + d
    | none => now + 15 * 60
  { sub := data.sub, exp := expire, key := SECRET_KEY }

/-- Modelled from the spec (section 4.2): the expiry and signature checks of
`jwt.decode` live in the third-party jose library, absent from src/.  The spec
states decoding fails on signature mismatch or expiry, and that the expiry
check is strict (`now >= exp` rejects). -/
def jwt_decode (key : String) (now : Nat) (t : Token) :
    Except Unit JwtData :=
  if t.key ≠ key then .error ()
  else if t.exp ≤ now then .error ()
  else .ok { sub := t.sub }

/-- crud.get_user_by_email (crud.py lines 16-27):
`db.query(User).filter(User.email == email).first()`. -/
def get_user_by_email (users : List User) (email : String) : Option User :=
  users.find? (fun u => decide (u.email = email))

/-- The errors raised by the /login endpoint (api.py lines 59-77): the 401
"Incorrect username or password" and the 401 "Please verify your email
address". -/
inductive LoginError where
  | invalidCredentials
  | emailNotVerified
deriving DecidableEq, Repr

/-- api.login (api.py lines 59-77): look the user up by email; 401
invalid-credentials when absent or the password fails verification; 401
email-not-verified when `user.verified` is false; otherwise issue a 30-minute
access token bound to the email. -/
def login (s : Store) (username password : String) (now : Nat) :
    Except LoginError Token :=
  match get_user_by_email s.users username with
  | none => .error .invalidCredentials
  | some user =>
    if ¬ verify_password password user.hashed_password then
      .error .invalidCredentials
    else if ¬ user.verified then
      .error .emailNotVerified
    else
      .ok (create_access_token now { sub := some user.email }
        (some (ACCESS_TOKEN_EXPIRE_MINUTES * 60)))

/-- The dictionary cached for a user by auth.get_current_user (auth.py lines
119-125): id, email, avatar, verified, role.value. -/
structure CachedUser where
  id : Nat
  email : String
  avatar : Option String
  verified : Bool
  role : String
deriving DecidableEq, Repr

/-- The snapshot auth.get_current_user builds from a store user
(auth.py lines 119-125). -/
def snapshotOf (u : User) : CachedUser :=
  { id := u.id, email := u.email, avatar := u.avatar,
    verified := u.verified, role := u.role.value }

/-- The Redis key space used by redis_client.py: `user:{id}` entries holding a
serialized user dict, and `reset_token:{email}` entries holding a reset token
string, each kept as a keyed association list. -/
structure Cache where
  userEntries : List (Nat × CachedUser)
  resetEntries : List (String × String)
deriving DecidableEq, Repr

/-- Fault profile for the Redis connection: which of the six RedisClient
methods raise a connection error when called.  None of the call sites in
auth.py, crud.py or api.py guards a Redis call, so a raised error propagates
to the caller of the enclosing operation. -/
structure CacheFx where
  cacheUserFails : Bool
  getCachedUserFails : Bool
  invalidateUserCacheFails : Bool
  cacheResetTokenFails : Bool
  getResetTokenFails : Bool
  invalidateResetTokenFails : Bool
deriving DecidableEq, Repr

/-- The fault-free Redis connection: every call succeeds. -/
def CacheFx.noFail : CacheFx :=
  { cacheUserFails := false, getCachedUserFails := false,
    invalidateUserCacheFails := false, cacheResetTokenFails := false,
    getResetTokenFails := false, invalidateResetTokenFails := false }

/-- Lookup of a `user:{id}` key in the cache state. -/
def Cache.lookupUser (c : Cache) (user_id : Nat) : Option CachedUser :=
  (c.userEntries.find? (fun p => decide (p.1 = user_id))).map (fun p => p.2)

/-- Lookup of a `reset_token:{email}` key in the cache state. -/
def Cache.lookupReset (c : Cache) (email : String) : Option String :=
  (c.resetEntries.find? (fun p => decide (p.1 = email))).map (fun p => p.2)

/-- redis_client.RedisClient.cache_user (redis_client.py lines 19-29):
`setex` on key `user:{id}`, overwriting any previous value; raises on a
failed connection. -/
def cache_user (fx : CacheFx) (c : Cache) (user_id : Nat)
    (user_data : CachedUser) : Except Unit Cache :=
  if fx.cacheUserFails then .error ()
  else .ok { c with userEntries :=
    (user_id, user_data) ::
      c.userEntries.filter (fun p => decide (p.1 ≠ user_id)) }

/-- redis_client.RedisClient.get_cached_user (redis_client.py lines 31-45):
`get` on key `user:{id}`, returning the parsed dict or None; raises on a
failed connection. -/
def get_cached_user (fx : CacheFx) (c : Cache) (user_id : Nat) :
    Except Unit (Option CachedUser) :=
  if fx.getCachedUserFails then .error ()
  else .ok (c.lookupUser user_id)

/-- redis_client.RedisClient.invalidate_user_cache (redis_client.py lines
47-55): `delete` on key `user:{id}`; raises on a failed connection. -/
def invalidate_user_cache (fx : CacheFx) (c : Cache) (user_id : Nat) :
    Except Unit Cache :=
  if fx.invalidateUserCacheFails then .error ()
  else .ok { c with userEntries :=
    c.userEntries.filter (fun p => decide (p.1 ≠ user_id)) }

/-- redis_client.RedisClient.cache_reset_token (redis_client.py lines 57-67):
`setex` on key `reset_token:{email}`; raises on a failed connection. -/
def cache_reset_token (fx : CacheFx) (c : Cache) (email token : String) :
    Except Unit Cache :=
  if fx.cacheResetTokenFails then .error ()
  else .ok { c with resetEntries :=
    (email, token) ::
      c.resetEntries.filter (fun p => decide (p.1 ≠ email)) }

/-- redis_client.RedisClient.get_reset_token (redis_client.py lines 69-80):
`get` on key `reset_token:{email}`; raises on a failed connection. -/
def get_reset_token (fx : CacheFx) (c : Cache) (email : String) :
    Except Unit (Option String) :=
  if fx.getResetTokenFails then .error ()
  else .ok (c.lookupReset email)

/-- redis_client.RedisClient.invalidate_reset_token (redis_client.py lines
82-90): `delete` on key `reset_token:{email}`; raises on a failed
connection. -/
def invalidate_reset_token (fx : CacheFx) (c : Cache) (email : String) :
    Except Unit Cache :=
  if fx.invalidateResetTokenFails then .error ()
  else .ok { c with resetEntries :=
    c.resetEntries.filter (fun p => decide (p.1 ≠ email)) }

/-- Replace the user row with the given id, as the committed effect of
mutating a queried ORM object and calling `db.commit()`. -/
def Store.updateUser (s : Store) (user_id : Nat) (u : User) : Store :=
  { users := s.users.map (fun v => if v.id = user_id then u else v) }

/-- What a call of auth.get_current_user can raise: the 401
credentials_exception (auth.py lines 95-113), or a Redis connection error
escaping from the unguarded cache calls (auth.py lines 116-126). -/
inductive AuthError where
  | credentialsException
  | cacheError
deriving DecidableEq, Repr

/-- auth.get_current_user (auth.py lines 77-128): decode the bearer token
(401 on JWTError or a missing `sub` claim), query the store by email
unconditionally (401 when absent), then consult the cache for `user.id` and,
only when that lookup returns nothing, write the current snapshot.  The Redis
calls are unguarded, so a raising cache read or write propagates.  Returns
the store user and the resulting cache state. -/
def get_current_user (fx : CacheFx) (s : Store) (c : Cache) (now : Nat)
    (token : Token) : Except AuthError (User × Cache) :=
  match jwt_decode SECRET_KEY now token with
  | .error _ => .error .credentialsException
  | .ok payload =>
    match payload.sub with
    | none => .error .credentialsException
    | some email =>
      match get_user_by_email s.users email with
      | none => .error .credentialsException
      | some user =>
        match get_cached_user fx c user.id with
        | .error _ => .error .cacheError
        | .ok (some _) => .ok (user, c)
        | .ok none =>
          match cache_user fx c user.id (snapshotOf user) with
          | .error _ => .error .cacheError
          | .ok c' => .ok (user, c')

/-- auth.require_admin (auth.py lines 131-149): pure role check on the
already-resolved user; 403 when the role is not admin, otherwise the user is
returned unchanged. -/
def require_admin (current_user : User) : Except Unit User :=
  if current_user.role ≠ UserRole.admin then .error ()
  else .ok current_user

/-- api.verify_email (api.py lines 35-43) with
crud.update_verification_status (crud.py lines 51-65): find the user by
verification token (404 "User not found or already verified" when none
matches), set `verified = True`, clear the token and commit.  No Redis call
occurs anywhere in this endpoint, so the cache state passes through
unchanged. -/
def verify_email (s : Store) (c : Cache) (token : String) :
    Except Unit User × Store × Cache :=
  match s.users.find? (fun u => decide (u.verification_token = some token)) with
  | none => (.error (), s, c)
  | some user =>
    let user' := { user with verified := true, verification_token := none }
    (.ok user', s.updateUser user.id user', c)

/-- The outcomes of crud.create_password_reset_token (crud.py lines 238-265):
the two ValueError sites, a Redis connection error escaping from
cache_reset_token, or the returned token. -/
inductive ResetRequestError where
  | userNotFound
  | userNotVerified
  | cacheError
deriving DecidableEq, Repr

/-- crud.create_password_reset_token (crud.py lines 238-265): look the user
up by email (ValueError "User not found" when absent, ValueError "User not
verified" when unverified), store a fresh reset token on the row and commit,
then mirror it into Redis for one hour.  The fresh uuid4 value is passed in
as `newToken`.  The Redis call happens after the commit and is unguarded, so
on a cache failure the store mutation stands while the error propagates. -/
def create_password_reset_token (fx : CacheFx) (s : Store) (c : Cache)
    (email newToken : String) :
    Except ResetRequestError String × Store × Cache :=
  match get_user_by_email s.users email with
  | none => (.error .userNotFound, s, c)
  | some user =>
    if ¬ user.verified then (.error .userNotVerified, s, c)
    else
      let user' := { user with reset_token := some newToken }
      let s' := s.updateUser user.id user'
      match cache_reset_token fx c email newToken with
      | .error _ => (.error .cacheError, s', c)
      | .ok c' => (.ok newToken, s', c')

/-- The uniform response body of the password-reset-request endpoint
(api.py lines 99 and 102). -/
def resetRequestMessage : String :=
  "If email exists, password reset link has been sent"

/-- api.request_password_reset (api.py lines 80-103): call
create_password_reset_token inside `try`; both on success and on a caught
ValueError the endpoint returns the same success message.  Only ValueError
is caught: a Redis connection error propagates out of the endpoint. -/
def request_password_reset (fx : CacheFx) (s : Store) (c : Cache)
    (email newToken : String) : Except Unit String × Store × Cache :=
  match create_password_reset_token fx s c email newToken with
  | (.ok _, s', c') => (.ok resetRequestMessage, s', c')
  | (.error .userNotFound, s', c') => (.ok resetRequestMessage, s', c')
  | (.error .userNotVerified, s', c') => (.ok resetRequestMessage, s', c')
  | (.error .cacheError, s', c') => (.error (), s', c')

/-- crud.reset_password (crud.py lines 268-293): find the user by reset token
in the store (False when none matches), replace the password hash with the
hash of the new password, clear the reset token and commit, then invalidate
the cached reset token and the cached user snapshot.  The two Redis calls
come after the commit and are unguarded, so on a cache failure the store
mutation stands while the error propagates instead of True being
returned. -/
def reset_password (fx : CacheFx) (s : Store) (c : Cache)
    (token new_password : String) : Except Unit Bool × Store × Cache :=
  match s.users.find? (fun u => decide (u.reset_token = some token)) with
  | none => (.ok false, s, c)
  | some user =>
    let user' := { user with
      hashed_password := get_password_hash new_password,
      reset_token := none }
    let s' := s.updateUser user.id user'
    match invalidate_reset_token fx c user.email with
    | .error _ => (.error (), s', c)
    | .ok c1 =>
      match invalidate_user_cache fx c1 user.id with
      | .error _ => (.error (), s', c1)
      | .ok c2 => (.ok true, s', c2)

/-- api.confirm_password_reset (api.py lines 105-129): run reset_password and
turn a False result into the 400 "Invalid or expired reset token"; a True
result yields the success message.  A Redis error from reset_password
propagates. -/
inductive ConfirmResetOutcome where
  | success
  | invalidOrExpiredToken
  | cacheError
deriving DecidableEq, Repr

/-- api.confirm_password_reset (api.py lines 105-129), see
`ConfirmResetOutcome`. -/
def confirm_password_reset (fx : CacheFx) (s : Store) (c : Cache)
    (token new_password : String) : ConfirmResetOutcome × Store × Cache :=
  match reset_password fx s c token new_password with
  | (.ok true, s', c') => (.success, s', c')
  | (.ok false, s', c') => (.invalidOrExpiredToken, s', c')
  | (.error _, s', c') => (.cacheError, s', c')

/-- api.update_avatar_user (api.py lines 140-163) after the require_admin
dependency has passed: upload yields `url` (the blob collaborator is
external; its result is passed in), crud.update_avatar (crud.py lines 85-99)
sets the avatar and commits, then invalidate_user_cache drops the snapshot.
The Redis call is unguarded. -/
def update_avatar_user (fx : CacheFx) (s : Store) (c : Cache)
    (current_user : User) (url : String) :
    Except Unit User × Store × Cache :=
  let user' := { current_user with avatar := some url }
  let s' := s.updateUser current_user.id user'
  match invalidate_user_cache fx c current_user.id with
  | .error _ => (.error (), s', c)
  | .ok c' => (.ok user', s', c')

/-- The avatar endpoint including its require_admin dependency (api.py line
143): FastAPI resolves the dependency before the endpoint body runs, so a
403 occurs before any upload or store mutation. -/
inductive AvatarOutcome where
  | ok (user : User)
  | forbidden
  | cacheError
deriving DecidableEq, Repr

/-- api.update_avatar_user guarded by auth.require_admin (api.py lines
140-163): a non-admin caller is rejected with 403 and neither the store nor
the cache is touched; an admin caller proceeds with the body. -/
def update_avatar_endpoint (fx : CacheFx) (s : Store) (c : Cache)
    (current_user : User) (url : String) : AvatarOutcome × Store × Cache :=
  match require_admin current_user with
  | .error _ => (.forbidden, s, c)
  | .ok user =>
    match update_avatar_user fx s c user url with
    | (.ok u, s', c') => (.ok u, s', c')
    | (.error _, s', c') => (.cacheError, s', c')

/-- Sample rows and states used to exercise the theorems on concrete
inputs. -/
def sampleUnverified : User :=
  { id := 1, email := "a@x.com", hashed_password := get_password_hash "pw1",
    avatar := none, verified := false, verification_token := some "vt",
    role := UserRole.user, reset_token := none }

/-- A verified sample user holding an outstanding reset token. -/
def sampleVerified : User :=
  { id := 2, email := "b@x.com", hashed_password := get_password_hash "pw2",
    avatar := none, verified := true, verification_token := none,
    role := UserRole.user, reset_token := some "rt" }

/-- A verified sample admin. -/
def sampleAdmin : User :=
  { id := 3, email := "c@x.com", hashed_password := get_password_hash "pw3",
    avatar := none, verified := true, verification_token := none,
    role := UserRole.admin, reset_token := none }

/-- A sample store holding the three sample users. -/
def sampleStore : Store :=
  { users := [sampleUnverified, sampleVerified, sampleAdmin] }

/-- The empty cache state. -/
def emptyCache : Cache := { userEntries := [], resetEntries := [] }

/-- A cache state holding a snapshot of the unverified sample user. -/
def staleCache : Cache :=
  { userEntries := [(1, snapshotOf sampleUnverified)], resetEntries := [] }

/-- A Redis connection on which every call raises. -/
def allFail : CacheFx :=
  { cacheUserFails := true, getCachedUserFails := true,
    invalidateUserCacheFails := true, cacheResetTokenFails := true,
    getResetTokenFails := true, invalidateResetTokenFails := true }

/-- A valid sample bearer token for the verified sample user. -/
def sampleToken : Token :=
  { sub := some "b@x.com", exp := 100, key := SECRET_KEY }

/-- The section 4.1 hasher model is injective, matching bcrypt's
collision-free contract. -/
theorem hash_inj {a b : String}
    (h : get_password_hash a = get_password_hash b) : a = b := by
  unfold get_password_hash at h
  have h1 : ("bcrypt$".data ++ a.data) = ("bcrypt$".data ++ b.data) :=
    congrArg String.data h
  exact String.ext (List.append_cancel_left h1)

/-- Verification against a stored digest succeeds exactly for the hashed
password (section 4.1 contract). -/
theorem verify_hash_iff (p q : String) :
    verify_password p (get_password_hash q) = true ↔ p = q := by
  unfold verify_password
  constructor
  · intro h
    exact hash_inj (by simpa using h)
  · intro h
    subst h
    simp

/-- Deleting a key from a keyed association list makes any later lookup of
that key miss. -/
theorem find?_filter_ne {α : Type} (l : List (Nat × α)) (k : Nat) :
    (l.filter (fun p => decide (p.1 ≠ k))).find?
      (fun p => decide (p.1 = k)) = none := by
  rw [List.find?_eq_none]
  intro p hp
  have h := (List.mem_filter.mp hp).2
  simp at h
  simp [h]


/-- C1: login fails with the email-not-verified 401 exactly when the stored
user's credentials verified but `verified` is false; a wrong password or an
absent email yields the invalid-credentials 401, never the verified check
(api.py lines 59-77 run the credential check strictly first). -/
theorem login_verified_check_after_credentials (s : Store)
    (username password : String) (now : Nat) :
    (∀ u, get_user_by_email s.users username = some u →
      verify_password password u.hashed_password = true →
      u.verified = false →
      login s username password now = .error .emailNotVerified) ∧
    (∀ u, get_user_by_email s.users username = some u →
      verify_password password u.hashed_password = false →
      login s username password now = .error .invalidCredentials) ∧
    (get_user_by_email s.users username = none →
      login s username password now = .error .invalidCredentials) := by
  refine ⟨?_, ?_, ?_⟩
  · intro u hu hv hnv
    simp [login, hu, hv, hnv]
  · intro u hu hv
    simp [login, hu, hv]
  · intro hu
    simp [login, hu]

/-- Concrete run of the C1 theorem on the sample store. -/
theorem login_verified_check_after_credentials_witness :
    login sampleStore "a@x.com" "pw1" 0 = .error .emailNotVerified ∧
    login sampleStore "a@x.com" "wrong" 0 = .error .invalidCredentials ∧
    login sampleStore "nobody@x.com" "pw1" 0 = .error .invalidCredentials := by
  refine ⟨?_, ?_, ?_⟩
  · exact (login_verified_check_after_credentials sampleStore "a@x.com" "pw1" 0).1
      sampleUnverified (by decide) (by decide) (by decide)
  · exact (login_verified_check_after_credentials sampleStore "a@x.com" "wrong" 0).2.1
      sampleUnverified (by decide) (by decide)
  · exact (login_verified_check_after_credentials sampleStore "nobody@x.com" "pw1" 0).2.2
      (by decide)

/-- C6: a token issued at `now` with positive lifetime `d` decodes to its
original subject claim at any instant strictly before `now + d`, and is
rejected at any instant at or after `now + d`; in particular the exact expiry
instant is rejected. -/
theorem token_decode_before_expiry (now d t : Nat) (data : JwtData)
    (hd : 0 < d) :
    (t < now + d →
      jwt_decode SECRET_KEY t (create_access_token now data (some d)) =
        .ok { sub := data.sub }) ∧
    (now + d ≤ t →
      jwt_decode SECRET_KEY t (create_access_token now data (some d)) =
        .error ()) ∧
    jwt_decode SECRET_KEY (now + d) (create_access_token now data (some d)) =
      .error () := by
  refine ⟨?_, ?_, ?_⟩
  · intro ht
    simp [jwt_decode, create_access_token, Nat.not_le.mpr ht]
  · intro ht
    simp [jwt_decode, create_access_token, ht]
  · simp [jwt_decode, create_access_token]

/-- Concrete run of the C6 theorem: a 60-second token read at 30, 60 and 90
seconds. -/
theorem token_decode_before_expiry_witness :
    jwt_decode SECRET_KEY 30 (create_access_token 0 { sub := some "a@x.com" } (some 60)) =
      .ok { sub := some "a@x.com" } ∧
    jwt_decode SECRET_KEY 90 (create_access_token 0 { sub := some "a@x.com" } (some 60)) =
      .error () ∧
    jwt_decode SECRET_KEY 60 (create_access_token 0 { sub := some "a@x.com" } (some 60)) =
      .error () := by
  refine ⟨?_, ?_, ?_⟩
  · exact (token_decode_before_expiry 0 60 30 { sub := some "a@x.com" } (by decide)).1 (by decide)
  · exact (token_decode_before_expiry 0 60 90 { sub := some "a@x.com" } (by decide)).2.1 (by decide)
  · exact (token_decode_before_expiry 0 60 60 { sub := some "a@x.com" } (by decide)).2.2

/-- C9: the avatar endpoint's role gate is a pure comparison: any non-admin
caller is rejected with 403 before the store or cache is touched and
independently of what the upload would return, while require_admin returns an
admin identity unchanged. -/
theorem require_admin_gates_avatar (fx : CacheFx) (s : Store) (c : Cache)
    (u : User) (url url2 : String) :
    (u.role ≠ UserRole.admin →
      update_avatar_endpoint fx s c u url = (.forbidden, s, c) ∧
      update_avatar_endpoint fx s c u url =
        update_avatar_endpoint fx s c u url2) ∧
    (u.role = UserRole.admin → require_admin u = .ok u) := by
  constructor
  · intro h
    constructor <;> simp [update_avatar_endpoint, require_admin, h]
  · intro h
    simp [require_admin, h]

/-- Concrete run of the C9 theorem: the sample non-admin is rejected with the
states unchanged, the sample admin passes the gate unchanged. -/
theorem require_admin_gates_avatar_witness :
    update_avatar_endpoint CacheFx.noFail sampleStore emptyCache
      sampleVerified "u1" = (.forbidden, sampleStore, emptyCache) ∧
    require_admin sampleAdmin = .ok sampleAdmin := by
  constructor
  · exact ((require_admin_gates_avatar CacheFx.noFail sampleStore emptyCache
      sampleVerified "u1" "u2").1 (by decide)).1
  · exact (require_admin_gates_avatar CacheFx.noFail sampleStore emptyCache
      sampleAdmin "u1" "u2").2 (by decide)

/-- C3: redeeming a verification token sets verified and clears the token;
the same token then matches nothing, so a second redemption (or any
non-matching token) fails with the 404 and leaves every identity
unchanged. -/
theorem verify_token_single_use (s : Store) (c c2 : Cache) (tok : String) :
    (∀ u, s.users.find?
        (fun v => decide (v.verification_token = some tok)) = some u →
      (∀ v ∈ s.users, v.verification_token = some tok → v.id = u.id) →
      verify_email s c tok =
        (.ok { u with verified := true, verification_token := none },
         s.updateUser u.id { u with verified := true, verification_token := none },
         c) ∧
      verify_email
        (s.updateUser u.id { u with verified := true, verification_token := none })
        c2 tok =
        (.error (),
         s.updateUser u.id { u with verified := true, verification_token := none },
         c2)) ∧
    (s.users.find? (fun v => decide (v.verification_token = some tok)) = none →
      verify_email s c tok = (.error (), s, c)) := by
  constructor
  · intro u hu huniq
    have hnone :
        (s.updateUser u.id
          { u with verified := true, verification_token := none }).users.find?
          (fun v => decide (v.verification_token = some tok)) = none := by
      rw [List.find?_eq_none]
      intro x hx
      simp only [Store.updateUser, List.mem_map] at hx
      obtain ⟨v, hv, heq⟩ := hx
      by_cases hid : v.id = u.id
      · rw [if_pos hid] at heq
        subst heq
        simp
      · rw [if_neg hid] at heq
        subst heq
        simp
        intro hcontra
        exact hid (huniq v hv hcontra)
    constructor
    · simp [verify_email, hu]
    · simp [verify_email, hnone]
  · intro hu
    simp [verify_email, hu]

/-- Concrete run of the C3 theorem: redeeming "vt" in the sample store
verifies the user and clears the token, redeeming it again fails. -/
theorem verify_token_single_use_witness :
    (verify_email sampleStore emptyCache "vt").1 =
      .ok { sampleUnverified with verified := true, verification_token := none } ∧
    (verify_email
      ((verify_email sampleStore emptyCache "vt").2.1) emptyCache "vt").1 =
      .error () := by
  have h := (verify_token_single_use sampleStore emptyCache emptyCache "vt").1
    sampleUnverified (by decide) (by decide)
  constructor
  · rw [h.1]
  · have h1 : (verify_email sampleStore emptyCache "vt").2.1 =
        sampleStore.updateUser sampleUnverified.id
          { sampleUnverified with verified := true, verification_token := none } := by
      rw [h.1]
    rw [h1, h.2]

/-- C5: the public password-reset-request endpoint answers with the same
success message whether the email belongs to a verified user, an unverified
user, or nobody (api.py lines 80-103 catch the ValueError and return the
identical body). -/
theorem request_reset_uniform_response (s : Store) (c : Cache)
    (email newToken : String) :
    (request_password_reset CacheFx.noFail s c email newToken).1 =
      .ok resetRequestMessage := by
  unfold request_password_reset create_password_reset_token
  cases hu : get_user_by_email s.users email with
  | none => simp
  | some user =>
    by_cases hv : user.verified
    · simp [hv, cache_reset_token, CacheFx.noFail]
    · simp [hv]

/-- C8: with a reachable cache, the authenticator returns the user found in
the store on every call — also when the cache already holds any snapshot —
and it writes the current snapshot exactly on a cache miss for the user's
id, leaving the cache untouched on a hit; an email absent from the store is
rejected whatever the cache holds. -/
theorem get_current_user_read_through (s : Store) (c : Cache) (now : Nat)
    (tok : Token) (email : String)
    (hkey : tok.key = SECRET_KEY) (hexp : now < tok.exp)
    (hsub : tok.sub = some email) :
    (∀ u, get_user_by_email s.users email = some u →
      (∀ snap, c.lookupUser u.id = some snap →
        get_current_user CacheFx.noFail s c now tok = .ok (u, c)) ∧
      (c.lookupUser u.id = none →
        get_current_user CacheFx.noFail s c now tok =
          .ok (u, { c with userEntries :=
            (u.id, snapshotOf u) ::
              c.userEntries.filter (fun p => decide (p.1 ≠ u.id)) }))) ∧
    (get_user_by_email s.users email = none →
      get_current_user CacheFx.noFail s c now tok =
        .error .credentialsException) := by
  have hdec : jwt_decode SECRET_KEY now tok = .ok { sub := tok.sub } := by
    simp [jwt_decode, hkey, Nat.not_le.mpr hexp]
  constructor
  · intro u hu
    constructor
    · intro snap hsnap
      simp [get_current_user, hdec, hsub, hu, get_cached_user,
        CacheFx.noFail, hsnap]
    · intro hsnap
      simp [get_current_user, hdec, hsub, hu, get_cached_user,
        CacheFx.noFail, hsnap, cache_user]
  · intro hu
    simp [get_current_user, hdec, hsub, hu]

/-- Concrete run of the C8 theorem: resolving the sample token against the
empty cache populates the snapshot; against a cache that already holds an
entry for the id, the cache is left as it was. -/
theorem get_current_user_read_through_witness :
    get_current_user CacheFx.noFail sampleStore emptyCache 0 sampleToken =
      .ok (sampleVerified,
        { userEntries := [(2, snapshotOf sampleVerified)], resetEntries := [] }) ∧
    get_current_user CacheFx.noFail sampleStore
      { userEntries := [(2, snapshotOf sampleUnverified)], resetEntries := [] }
      0 sampleToken =
      .ok (sampleVerified,
        { userEntries := [(2, snapshotOf sampleUnverified)], resetEntries := [] }) := by
  constructor
  · have h := ((get_current_user_read_through sampleStore emptyCache 0
      sampleToken "b@x.com" (by decide) (by decide) (by decide)).1
      sampleVerified (by decide)).2 (by decide)
    rw [h]
    rfl
  · exact ((get_current_user_read_through sampleStore
      { userEntries := [(2, snapshotOf sampleUnverified)], resetEntries := [] }
      0 sampleToken "b@x.com" (by decide) (by decide) (by decide)).1
      sampleVerified (by decide)).1 (snapshotOf sampleUnverified) (by decide)

/-- C10: confirmReset's outcome and committed store state depend only on the
store's reset_token column: two runs from the same store with arbitrary
cache contents agree on both; and with a reachable cache a token still held
by the store is redeemed — no cache TTL bounds redemption. -/
theorem reset_password_cache_independent (fx : CacheFx) (s : Store)
    (c c2 : Cache) (tok pw : String) :
    ((reset_password fx s c tok pw).1 = (reset_password fx s c2 tok pw).1 ∧
     (reset_password fx s c tok pw).2.1 =
       (reset_password fx s c2 tok pw).2.1) ∧
    (∀ u, s.users.find? (fun v => decide (v.reset_token = some tok)) = some u →
      (reset_password CacheFx.noFail s c tok pw).1 = .ok true) := by
  constructor
  · unfold reset_password
    cases hf : s.users.find? (fun v => decide (v.reset_token = some tok)) with
    | none => simp
    | some u =>
      simp only [invalidate_reset_token, invalidate_user_cache]
      cases hb : fx.invalidateResetTokenFails <;>
        cases hb2 : fx.invalidateUserCacheFails <;> simp [hb, hb2]
  · intro u hu
    simp [reset_password, hu, invalidate_reset_token, invalidate_user_cache,
      CacheFx.noFail]

/-- Concrete run of the C10 theorem: the sample stored token "rt" is redeemed
from an empty cache (its mirror expired long ago). -/
theorem reset_password_cache_independent_witness :
    (reset_password CacheFx.noFail sampleStore emptyCache "rt" "npw").1 =
      .ok true := by
  exact (reset_password_cache_independent CacheFx.noFail sampleStore
    emptyCache emptyCache "rt" "npw").2 sampleVerified (by decide)

/-- C7 as stated is false: redeeming the sample verification token flips the
cached `verified` field in the store but performs no cache invalidation, so
the stale snapshot (still saying unverified) survives the successful
mutation. -/
theorem verify_email_leaves_stale_snapshot :
    (verify_email sampleStore staleCache "vt").1 =
      .ok { sampleUnverified with verified := true, verification_token := none } ∧
    ((verify_email sampleStore staleCache "vt").2.2).lookupUser 1 =
      some (snapshotOf sampleUnverified) ∧
    (snapshotOf sampleUnverified).verified = false := by
  refine ⟨rfl, rfl, rfl⟩

/-- C7 amended: the avatar mutation and the password reset delete the
identity's user-cache entry before returning (with a reachable cache), while
verification redemption makes no cache call at all and returns the cache
state unchanged. -/
theorem avatar_and_reset_invalidate_cache (s : Store) (c : Cache) (u : User)
    (url tok pw vtok : String) :
    ((update_avatar_user CacheFx.noFail s c u url).2.2).lookupUser u.id =
      none ∧
    (∀ v, s.users.find? (fun w => decide (w.reset_token = some tok)) = some v →
      ((reset_password CacheFx.noFail s c tok pw).2.2).lookupUser v.id =
        none) ∧
    (verify_email s c vtok).2.2 = c := by
  refine ⟨?_, ?_, ?_⟩
  · simp [update_avatar_user, invalidate_user_cache, CacheFx.noFail,
      Cache.lookupUser, find?_filter_ne]
  · intro v hv
    simp [reset_password, hv, invalidate_reset_token, invalidate_user_cache,
      CacheFx.noFail, Cache.lookupUser, find?_filter_ne]
  · unfold verify_email
    cases hf : s.users.find?
        (fun w => decide (w.verification_token = some vtok)) <;> simp

/-- Concrete run of the amended C7 theorem on the sample states. -/
theorem avatar_and_reset_invalidate_cache_witness :
    ((update_avatar_user CacheFx.noFail sampleStore staleCache sampleUnverified
      "http://a").2.2).lookupUser 1 = none ∧
    ((reset_password CacheFx.noFail sampleStore
      { userEntries := [(2, snapshotOf sampleVerified)], resetEntries := [] }
      "rt" "npw").2.2).lookupUser 2 = none := by
  have h := avatar_and_reset_invalidate_cache sampleStore staleCache
    sampleUnverified "http://a" "rt" "npw" "vt"
  have h2 := avatar_and_reset_invalidate_cache sampleStore
    { userEntries := [(2, snapshotOf sampleVerified)], resetEntries := [] }
    sampleUnverified "http://a" "rt" "npw" "vt"
  exact ⟨h.1, h2.2.1 sampleVerified (by decide)⟩

/-- C4 as stated is false: the Redis calls in auth.get_current_user and
crud.reset_password are unguarded, so with a raising cache every request
fails with the propagated cache error — here a valid token over a present
verified user is not resolved, and a password reset commits the store
mutation yet does not return success. -/
theorem cache_errors_surface :
    get_current_user allFail sampleStore emptyCache 0 sampleToken =
      .error .cacheError ∧
    (reset_password allFail sampleStore emptyCache "rt" "npw").1 =
      .error () ∧
    (reset_password allFail sampleStore emptyCache "rt" "npw").2.1 ≠
      sampleStore := by
  refine ⟨rfl, rfl, by decide⟩

/-- C4 amended: a cache miss (or any cache contents) never surfaces — with a
reachable cache, resolveIdentity returns the store's identity and a
committed password reset returns success — but a cache call that raises
propagates: a raising cache read fails resolveIdentity, and a raising
invalidation makes the reset fail even though the store mutation already
committed. -/
theorem cache_miss_falls_through_but_errors_propagate (fx : CacheFx)
    (s : Store) (c : Cache) (now : Nat) (tok : Token) (email : String)
    (u : User) (rtok pw : String)
    (hkey : tok.key = SECRET_KEY) (hexp : now < tok.exp)
    (hsub : tok.sub = some email)
    (hu : get_user_by_email s.users email = some u) :
    (∃ c', get_current_user CacheFx.noFail s c now tok = .ok (u, c')) ∧
    (fx.getCachedUserFails = true →
      get_current_user fx s c now tok = .error .cacheError) ∧
    (∀ v, s.users.find? (fun w => decide (w.reset_token = some rtok)) = some v →
      (reset_password CacheFx.noFail s c rtok pw).1 = .ok true ∧
      (fx.invalidateResetTokenFails = true →
        (reset_password fx s c rtok pw).1 = .error () ∧
        (reset_password fx s c rtok pw).2.1 =
          (reset_password CacheFx.noFail s c rtok pw).2.1)) := by
  have hdec : jwt_decode SECRET_KEY now tok = .ok { sub := tok.sub } := by
    simp [jwt_decode, hkey, Nat.not_le.mpr hexp]
  refine ⟨?_, ?_, ?_⟩
  · cases hl : c.lookupUser u.id with
    | none =>
      refine ⟨{ c with userEntries := (u.id, snapshotOf u) ::
        c.userEntries.filter (fun p => decide (p.1 ≠ u.id)) }, ?_⟩
      simp [get_current_user, hdec, hsub, hu, get_cached_user,
        CacheFx.noFail, hl, cache_user]
    | some snap =>
      refine ⟨c, ?_⟩
      simp [get_current_user, hdec, hsub, hu, get_cached_user,
        CacheFx.noFail, hl]
  · intro hf
    simp [get_current_user, hdec, hsub, hu, get_cached_user, hf]
  · intro v hv
    refine ⟨?_, ?_⟩
    · simp [reset_password, hv, invalidate_reset_token,
        invalidate_user_cache, CacheFx.noFail]
    · intro hf
      constructor <;>
        simp [reset_password, hv, invalidate_reset_token,
          invalidate_user_cache, CacheFx.noFail, hf]

/-- Concrete run of the amended C4 theorem: the same valid token resolves
against a reachable empty cache and fails against a raising cache. -/
theorem cache_miss_falls_through_but_errors_propagate_witness :
    (∃ c', get_current_user CacheFx.noFail sampleStore emptyCache 0
      sampleToken = .ok (sampleVerified, c')) ∧
    get_current_user allFail sampleStore emptyCache 0 sampleToken =
      .error .cacheError ∧
    (reset_password CacheFx.noFail sampleStore emptyCache "rt" "npw").1 =
      .ok true ∧
    (reset_password allFail sampleStore emptyCache "rt" "npw").1 =
      .error () := by
  have h := cache_miss_falls_through_but_errors_propagate allFail sampleStore
    emptyCache 0 sampleToken "b@x.com" sampleVerified "rt" "npw"
    (by decide) (by decide) (by decide) (by decide)
  have h3 := h.2.2 sampleVerified (by decide)
  exact ⟨h.1, h.2.1 rfl, h3.1, (h3.2 rfl).1⟩

/-- After replacing the row with id `u.id` by `u'` (which keeps the email),
looking the email up still finds exactly the replaced row, provided the
email determines the id in the table. -/
theorem get_user_by_email_updateUser (users : List User) (u u' : User)
    (hmem : u ∈ users) (hemail : u'.email = u.email)
    (huniq : ∀ v ∈ users, v.email = u.email → v.id = u.id) :
    (users.map (fun v => if v.id = u.id then u' else v)).find?
      (fun v => decide (v.email = u.email)) = some u' := by
  induction users with
  | nil => cases hmem
  | cons w ws ih =>
    simp only [List.map_cons]
    by_cases hid : w.id = u.id
    · rw [if_pos hid]
      rw [List.find?_cons_of_pos]
      simp [hemail]
    · rw [if_neg hid]
      have hwe : ¬ (w.email = u.email) := fun he =>
        hid (huniq w (List.mem_cons_self w ws) he)
      rw [List.find?_cons_of_neg]
      · apply ih
        · cases List.mem_cons.mp hmem with
          | inl h =>
            exact absurd (by rw [h]) hid
          | inr h => exact h
        · intro v hv he
          exact huniq v (List.mem_cons_of_mem w hv) he
      · simp [hwe]

/-- C2: confirming a reset with a stored token succeeds exactly once: the
password hash is replaced by the hash of the new password and the stored
reset token is cleared, a second confirmation with the same token fails with
the invalid-or-expired 400 leaving the store untouched, and afterwards login
succeeds with the new password and rejects the old one. -/
theorem confirm_reset_single_use_rotates_password (fx2 : CacheFx) (s : Store)
    (c c2 : Cache) (tok newPw oldPw : String) (u : User) (now : Nat)
    (hfind : s.users.find? (fun v => decide (v.reset_token = some tok)) = some u)
    (huniq : ∀ v ∈ s.users, v.reset_token = some tok → v.id = u.id)
    (hemail : ∀ v ∈ s.users, v.email = u.email → v.id = u.id)
    (hver : u.verified = true)
    (hne : oldPw ≠ newPw)
    (hold : u.hashed_password = get_password_hash oldPw) :
    (confirm_password_reset CacheFx.noFail s c tok newPw).1 = .success ∧
    (confirm_password_reset CacheFx.noFail s c tok newPw).2.1 =
      s.updateUser u.id
        { u with hashed_password := get_password_hash newPw,
                 reset_token := none } ∧
    confirm_password_reset fx2
      (s.updateUser u.id
        { u with hashed_password := get_password_hash newPw,
                 reset_token := none }) c2 tok newPw =
      (.invalidOrExpiredToken,
       s.updateUser u.id
         { u with hashed_password := get_password_hash newPw,
                  reset_token := none }, c2) ∧
    login (s.updateUser u.id
        { u with hashed_password := get_password_hash newPw,
                 reset_token := none }) u.email newPw now =
      .ok (create_access_token now { sub := some u.email }
        (some (ACCESS_TOKEN_EXPIRE_MINUTES * 60))) ∧
    login (s.updateUser u.id
        { u with hashed_password := get_password_hash newPw,
                 reset_token := none }) u.email oldPw now =
      .error .invalidCredentials := by
  set u' : User :=
    { u with hashed_password := get_password_hash newPw, reset_token := none }
    with hu'
  have hnone : (s.updateUser u.id u').users.find?
      (fun v => decide (v.reset_token = some tok)) = none := by
    rw [List.find?_eq_none]
    intro x hx
    simp only [Store.updateUser, List.mem_map] at hx
    obtain ⟨v, hv, heq⟩ := hx
    by_cases hid : v.id = u.id
    · rw [if_pos hid] at heq
      subst heq
      simp [hu']
    · rw [if_neg hid] at heq
      subst heq
      simp
      intro hcontra
      exact hid (huniq v hv hcontra)
  have hlookup : get_user_by_email (s.updateUser u.id u').users u.email =
      some u' := by
    unfold get_user_by_email Store.updateUser
    exact get_user_by_email_updateUser s.users u u'
      (List.mem_of_find?_eq_some hfind) rfl hemail
  have hvnew : verify_password newPw u'.hashed_password = true := by
    simp [hu', verify_hash_iff]
  have hver' : u'.verified = true := by
    simp [hu', hver]
  have hvold : verify_password oldPw u'.hashed_password = false := by
    cases hb : verify_password oldPw u'.hashed_password with
    | false => rfl
    | true =>
      have : oldPw = newPw := (verify_hash_iff oldPw newPw).mp (by
        simpa [hu'] using hb)
      exact absurd this hne
  refine ⟨?_, ?_, ?_, ?_, ?_⟩
  · simp [confirm_password_reset, reset_password, hfind,
      invalidate_reset_token, invalidate_user_cache, CacheFx.noFail]
  · simp [confirm_password_reset, reset_password, hfind,
      invalidate_reset_token, invalidate_user_cache, CacheFx.noFail]
  · simp [confirm_password_reset, reset_password, hnone]
  · simp only [login]
    rw [hlookup]
    simp [hvnew, hver', hver, ACCESS_TOKEN_EXPIRE_MINUTES, hu']
  · simp only [login]
    rw [hlookup]
    simp [hvold]

/-- Concrete run of the C2 theorem: redeeming the stored token "rt" for the
verified sample user, then replaying it and logging in with both
passwords. -/
theorem confirm_reset_single_use_rotates_password_witness :
    (confirm_password_reset CacheFx.noFail sampleStore emptyCache
      "rt" "npw").1 = .success ∧
    confirm_password_reset CacheFx.noFail
      ((confirm_password_reset CacheFx.noFail sampleStore emptyCache
        "rt" "npw").2.1) emptyCache "rt" "npw" =
      (.invalidOrExpiredToken,
       (confirm_password_reset CacheFx.noFail sampleStore emptyCache
         "rt" "npw").2.1, emptyCache) ∧
    login ((confirm_password_reset CacheFx.noFail sampleStore emptyCache
      "rt" "npw").2.1) "b@x.com" "npw" 0 =
      .ok (create_access_token 0 { sub := some "b@x.com" }
        (some (ACCESS_TOKEN_EXPIRE_MINUTES * 60))) ∧
    login ((confirm_password_reset CacheFx.noFail sampleStore emptyCache
      "rt" "npw").2.1) "b@x.com" "pw2" 0 =
      .error .invalidCredentials := by
  have h := confirm_reset_single_use_rotates_password CacheFx.noFail
    sampleStore emptyCache emptyCache "rt" "npw" "pw2" sampleVerified 0
    (by decide) (by decide) (by decide) (by decide) (by decide) (by decide)
  refine ⟨h.1, ?_, ?_, ?_⟩
  · rw [h.2.1]
    exact h.2.2.1
  · rw [h.2.1]
    exact h.2.2.2.1
  · rw [h.2.1]
    exact h.2.2.2.2

end ContactsApi
